import Mathlib

/-!
Shallow embedding of the press-interaction engine of `svelte-interactions`
(`src/lib/interactions/press/create.ts`, a Svelte port of react-aria's
`usePress`).  Pure helper functions (geometry, keyboard validity) are
translated directly; the stateful engine closure is translated as explicit
state passing over a `Machine` record, with every observable side effect
(event emission, focusing, dispatching synthesized keyups, text-selection
locking, link opening) recorded in an append-only `trace`.

Coordinates are modelled as rationals (`ℚ`): the source operates on JS
numbers and none of the verified properties involve floating-point rounding.

Two tiny browser probes imported from `$lib/utils` are not part of the
sources available here (`isVirtualClick`, `isVirtualPointerEvent`, `isMac`);
their *results* are modelled as event/environment fields, see the doc
comments marked `Modelled from the spec:`.
-/

/-- `PointerType` from `src/lib/types/events.ts`:
`'mouse' | 'pen' | 'touch' | 'keyboard' | 'virtual'`. -/
inductive PType where
  | mouse | pen | touch | keyboard | virtual
deriving DecidableEq, Repr

/-- The four press lifecycle event types (`PressEvent['type']`). -/
inductive PressType where
  | pressstart | pressend | pressup | press
deriving DecidableEq, Repr

/-- `Rect` (press/create.ts lines 911-916): a client rectangle. -/
structure Rect where
  top : ℚ
  right : ℚ
  bottom : ℚ
  left : ℚ
deriving DecidableEq, Repr

/-- `EventPoint` (press/create.ts lines 918-925): a point with optional
contact dimensions. -/
structure EventPoint where
  clientX : ℚ
  clientY : ℚ
  width : Option ℚ := none
  height : Option ℚ := none
  radiusX : Option ℚ := none
  radiusY : Option ℚ := none
deriving DecidableEq, Repr

/-- `getPointClientRect` (press/create.ts lines 927-947). -/
def getPointClientRect (point : EventPoint) : Rect :=
  let offsetX : ℚ :=
    match point.width with
    | some w => w / 2
    | none => match point.radiusX with
      | some rx => rx
      | none => 0
  let offsetY : ℚ :=
    match point.height with
    | some h => h / 2
    | none => match point.radiusY with
      | some ry => ry
      | none => 0
  { top := point.clientY - offsetY
    right := point.clientX + offsetX
    bottom := point.clientY + offsetY
    left := point.clientX - offsetX }

/-- `areRectanglesOverlapping` (press/create.ts lines 949-959). -/
def areRectanglesOverlapping (a b : Rect) : Bool :=
  -- check if they cannot overlap on x axis
  if a.left > b.right || b.left > a.right then false
  -- check if they cannot overlap on y axis
  else if a.top > b.bottom || b.top > a.bottom then false
  else true

/-- A DOM element, carrying exactly the metadata the press engine inspects:
tag name, `type` attribute (for inputs), `role` attribute, presence of
`href`, content-editability, its bounding client rect, an identity, and the
ids of its ancestors (to model `Element.contains`). -/
structure Elem where
  id : Nat
  tag : String := ""
  typeAttr : String := ""
  role : Option String := none
  hasHref : Bool := false
  isContentEditable : Bool := false
  rect : Rect := ⟨0, 0, 0, 0⟩
  ancestors : List Nat := []
deriving DecidableEq, Repr

/-- DOM `a.contains(b)`: `b` is `a` itself or a descendant of `a`. -/
def Elem.containsE (a b : Elem) : Bool :=
  a.id == b.id || b.ancestors.contains a.id

/-- `isOverTarget` (press/create.ts lines 961-965); the target's
`getBoundingClientRect()` is the modelled `rect` field. -/
def isOverTarget (point : EventPoint) (target : Elem) : Bool :=
  areRectanglesOverlapping target.rect (getPointClientRect point)

/-- `isHTMLAnchorLink` (press/create.ts lines 859-861):
`target.tagName === 'A' && target.hasAttribute('href')`. -/
def isHTMLAnchorLink (target : Elem) : Bool :=
  target.tag == "A" && target.hasHref

/-- `nonTextInputTypes` (press/create.ts lines 988-998). -/
def nonTextInputTypes : List String :=
  ["checkbox", "radio", "range", "color", "file", "image", "button", "submit", "reset"]

/-- `isValidInputKey` (press/create.ts lines 1000-1005). -/
def isValidInputKey (target : Elem) (key : String) : Bool :=
  -- Only space should toggle checkboxes and radios, not enter.
  if target.typeAttr == "checkbox" || target.typeAttr == "radio" then key == " "
  else nonTextInputTypes.contains target.typeAttr

/-- `element instanceof HTMLInputElement`. -/
def isInputElement (el : Elem) : Bool := el.tag == "INPUT"

/-- `element instanceof HTMLTextAreaElement`. -/
def isTextAreaElement (el : Elem) : Bool := el.tag == "TEXTAREA"

/-- Keyboard-event data used by `isValidKeyboardEvent`. -/
structure KeyData where
  key : String
  code : String := ""
deriving DecidableEq, Repr

/-- JS falsiness of `element.getAttribute('role')` (a `string | null`):
`!role` is true when the attribute is absent (`null`) or is the empty
string. -/
def roleIsFalsy (role : Option String) : Bool :=
  match role with
  | none => true
  | some s => s == ""

/-- `isValidKeyboardEvent` (press/create.ts lines 863-880).  The source's
`!role` test is JS truthiness on the `getAttribute('role')` result,
modelled by `roleIsFalsy` (absent or empty attribute). -/
def isValidKeyboardEvent (event : KeyData) (currentTarget : Elem) : Bool :=
  let key := event.key
  let code := event.code
  let element := currentTarget
  let role := element.role
  -- Accessibility for keyboards. Space and Enter only.
  -- "Spacebar" is for IE 11
  (key == "Enter" || key == " " || key == "Spacebar" || code == "Space") &&
    !((isInputElement element && !isValidInputKey element key) ||
      isTextAreaElement element ||
      element.isContentEditable) &&
    -- Links should only trigger with Enter key
    !((role == some "link" || (roleIsFalsy role && isHTMLAnchorLink element)) && key != "Enter")

/-- `EventBase` (`src/lib/types/events.ts`): the modifier flags plus
`currentTarget`, the payload the triggers consume. -/
structure EventBase where
  currentTarget : Elem
  shiftKey : Bool := false
  ctrlKey : Bool := false
  metaKey : Bool := false
  altKey : Bool := false
deriving DecidableEq, Repr

/-- `createEvent` (press/create.ts lines 901-909). -/
def createEvent (target : Elem) (e : EventBase) : EventBase :=
  { currentTarget := target
    shiftKey := e.shiftKey
    ctrlKey := e.ctrlKey
    metaKey := e.metaKey
    altKey := e.altKey }

/-- A constructed `PressEvent` (press/create.ts lines 63-90): `target` is
`originalEvent.currentTarget`, modifiers are copied from the origin event. -/
structure PressEvt where
  type : PressType
  pointerType : PType
  target : Elem
  shiftKey : Bool
  ctrlKey : Bool
  metaKey : Bool
  altKey : Bool
deriving DecidableEq, Repr

/-- The `PressEvent` constructor body. -/
def mkPressEvt (type : PressType) (pointerType : PType) (originalEvent : EventBase) : PressEvt :=
  { type := type
    pointerType := pointerType
    target := originalEvent.currentTarget
    shiftKey := originalEvent.shiftKey
    metaKey := originalEvent.metaKey
    ctrlKey := originalEvent.ctrlKey
    altKey := originalEvent.altKey }

/-- One observable side effect of the engine, in chronological order:
`emit` covers both the consumer callback invocation and the
`dispatchPressEvent` custom-event dispatch of the same `PressEvent`;
`focus` is `focusWithoutScrolling`; `dispatchKeyup` is the synthesized
`new KeyboardEvent('keyup', …)` dispatch of the macOS Meta recovery;
`disableTextSel`/`restoreTextSel` are the text-selection lock; and
`openLinkFire` is the manual `openLink` call for role-overridden anchors. -/
inductive Act where
  | emit (e : PressEvt)
  | focus (el : Nat)
  | dispatchKeyup (key : String)
  | disableTextSel (el : Nat)
  | restoreTextSel (el : Nat)
  | openLinkFire (el : Nat)
deriving DecidableEq, Repr

/-- Keyboard event (`KeyboardEvent`): key data, `repeat`, `target`,
and the hidden `LINK_CLICKED` symbol slot (press/create.ts line 273). -/
structure KeyEvt where
  base : EventBase
  key : String
  code : String := ""
  repeated : Bool := false
  target : Elem
  linkClicked : Bool := false
deriving DecidableEq, Repr

/-- Key data of a keyboard event, as consumed by `isValidKeyboardEvent`. -/
def KeyEvt.keyData (e : KeyEvt) : KeyData := { key := e.key, code := e.code }

/-- Mouse event (`MouseEvent`): button, target, client point, and the result
of the `isVirtualClick` browser heuristic.

`virtualHeuristic` — Modelled from the spec: the implementation of
`isVirtualClick` (imported from `$lib/utils`) is not among the available
sources; the spec describes it as "a browser-specific heuristic" detecting
"synthetic/virtual activation (screen readers, `.click()` calls)", so its
result is carried as an abstract boolean on the event. -/
structure MouseEvt where
  base : EventBase
  button : Nat := 0
  target : Elem
  point : EventPoint := {clientX := 0, clientY := 0}
  virtualHeuristic : Bool := false
deriving DecidableEq, Repr

/-- `isVirtualClick(e)` — Modelled from the spec: see `MouseEvt.virtualHeuristic`. -/
def isVirtualClick (e : MouseEvt) : Bool := e.virtualHeuristic

/-- Pointer event (`PointerEvent`): pointer identity, button, native
`pointerType` (`'mouse' | 'pen' | 'touch'`), client point, target, and the
result of the `isVirtualPointerEvent` probe.

`virtualPointer` — Modelled from the spec: the implementation of
`isVirtualPointerEvent` (imported from `$lib/utils`) is not among the
available sources; the spec describes it as detecting "pointer events
reporting a 'virtual' pointer type (assistive-technology synthesized, with
unreliable coordinates)", so its result is carried as an abstract boolean. -/
structure PtrEvt where
  base : EventBase
  pointerId : Nat
  button : Nat := 0
  ptype : PType := .mouse
  point : EventPoint := {clientX := 0, clientY := 0}
  target : Elem
  virtualPointer : Bool := false
deriving DecidableEq, Repr

/-- `isVirtualPointerEvent(e)` — Modelled from the spec: see `PtrEvt.virtualPointer`. -/
def isVirtualPointerEvent (e : PtrEvt) : Bool := e.virtualPointer

/-- A `Touch` of a `TouchEvent`: identifier plus an `EventPoint`
(`clientX/clientY/radiusX/radiusY`). -/
structure Touch where
  identifier : Nat
  point : EventPoint
deriving DecidableEq, Repr

/-- Touch event (`TouchEvent`). -/
structure TouchEvt where
  base : EventBase
  target : Elem
  targetTouches : List Touch := []
  changedTouches : List Touch := []
deriving DecidableEq, Repr

/-- `getTouchFromEvent` (press/create.ts lines 882-888). -/
def getTouchFromEvent (event : TouchEvt) : Option Touch :=
  match event.targetTouches with
  | t :: _ => some t
  | [] => none

/-- `getTouchById` (press/create.ts lines 890-899). -/
def getTouchById (event : TouchEvt) (pointerId : Option Nat) : Option Touch :=
  event.changedTouches.find? (fun touch => some touch.identifier == pointerId)

/-- The runtime-mutable configuration stores (`opts` in `createPress`);
`isPressedProp` is stored by the source but never read afterwards, and the
five callback slots plus `onPressChange` are modelled as the `Consumer`
propagation oracle (they have no effect on engine state). -/
structure Opts where
  isDisabled : Bool := false
  preventFocusOnPress : Bool := false
  shouldCancelOnPointerExit : Bool := false
  allowTextSelectionOnPress : Bool := false
deriving DecidableEq, Repr

/-- `PressState` (press/create.ts lines 31-44). `metaKeyEvents` is the JS
`Map<string, KeyboardEvent>`, modelled as an insertion-ordered association
list (JS `Map.set` updates an existing key in place, `values()` iterates in
insertion order). -/
structure PressState where
  isPressed : Bool
  ignoreEmulatedMouseEvents : Bool
  ignoreClickAfterPress : Bool
  didFirePressStart : Bool
  isTriggeringEvent : Bool
  activePointerId : Option Nat
  target : Option Elem
  isOverTarget : Bool
  pointerType : Option PType
  metaKeyEvents : Option (List (String × KeyEvt)) := none
deriving DecidableEq, Repr

/-- JS `Map.set` on the modelled map (in-place update of an existing key,
append otherwise); `?.set` on `undefined` is a no-op. -/
def mapSet (m : Option (List (String × KeyEvt))) (k : String) (v : KeyEvt) :
    Option (List (String × KeyEvt)) :=
  match m with
  | none => none
  | some l =>
    if l.any (fun p => p.1 == k) then some (l.map (fun p => if p.1 == k then (k, v) else p))
    else some (l ++ [(k, v)])

/-- JS `Map.delete` (`?.delete` on `undefined` is a no-op). -/
def mapDelete (m : Option (List (String × KeyEvt))) (k : String) :
    Option (List (String × KeyEvt)) :=
  m.map (fun l => l.filter (fun p => p.1 != k))

/-- JS `map?.size` (0 when the map is `undefined`). -/
def mapSize (m : Option (List (String × KeyEvt))) : Nat :=
  (m.getD []).length

/-- Kinds of document/window-scoped listeners the engine registers through
`createGlobalListeners` (the registry dedupes by handler identity and
supports `removeAllGlobalListeners`). -/
inductive GListener where
  | keyup | pointermove | pointerup | pointercancel | mouseup | scroll
deriving DecidableEq, Repr

/-- One engine instance: the mutable option stores, the internal `state`
store, the public `isPressed` store (`pubPressed`), the set of registered
global listeners, and the chronological trace of observable effects. -/
structure Machine where
  opts : Opts
  state : PressState
  pubPressed : Bool
  listeners : List GListener
  trace : List Act
deriving DecidableEq, Repr

/-- The consumer-supplied callbacks, reduced to their only engine-visible
effect: whether `continuePropagation()` is called on a given emitted event
(the same logical decision covers the callback invocation and the custom
event dispatch, which receive the same `PressEvent` object). -/
structure Consumer where
  contProp : PressEvt → Bool

/-- Ambient environment: platform probes and the `openLink.isOpening`
module-level flag.

`isMac` — Modelled from the spec: the `isMac` platform probe imported from
`$lib/utils` is not among the available sources; the spec calls it "Mac
detection", modelled as an environment flag.  `pointerPlatform` is
`typeof PointerEvent !== 'undefined'` (press/create.ts line 816).
`openLinkIsOpening` is the `(openLink as any).isOpening` flag set by
`openLink` (utils/open-link.ts lines 43-47); it is `false` except while
`openLink` is dispatching its own click. -/
structure Env where
  isMac : Bool := false
  pointerPlatform : Bool := true
  openLinkIsOpening : Bool := false

/-- Initial engine state (press/create.ts lines 119-131). -/
def initMachine (opts : Opts) : Machine :=
  { opts := opts
    state :=
      { isPressed := false
        ignoreEmulatedMouseEvents := false
        ignoreClickAfterPress := false
        didFirePressStart := false
        isTriggeringEvent := false
        activePointerId := none
        target := none
        isOverTarget := false
        pointerType := none
        metaKeyEvents := none }
    pubPressed := false
    listeners := []
    trace := [] }

/-- Record one observable effect. -/
def pushAction (m : Machine) (a : Act) : Machine :=
  { m with trace := m.trace ++ [a] }

/-- `addGlobalListener` (idempotent per listener kind). -/
def addListener (m : Machine) (k : GListener) : Machine :=
  if m.listeners.contains k then m else { m with listeners := m.listeners ++ [k] }

/-- `removeAllGlobalListeners`. -/
def removeAllListeners (m : Machine) : Machine :=
  { m with listeners := [] }

/-- `triggerPressStart` (press/create.ts lines 142-166).  The returned
boolean is the `shouldStopPropagation` result. -/
def triggerPressStart (cons : Consumer) (m : Machine) (originalEvent : EventBase)
    (pointerType : PType) : Machine × Bool :=
  if m.opts.isDisabled || m.state.didFirePressStart then (m, false)
  else
    let m := { m with state := { m.state with isTriggeringEvent := true } }
    let event := mkPressEvt .pressstart pointerType originalEvent
    -- onPressStart?.(event); dispatchPressEvent(event); onPressChange?.(true)
    let m := pushAction m (.emit event)
    let shouldStopPropagation := !cons.contProp event
    let m := { m with
      state := { m.state with isTriggeringEvent := false, didFirePressStart := true }
      pubPressed := true }
    (m, shouldStopPropagation)

/-- `triggerPressEnd` (press/create.ts lines 168-205). -/
def triggerPressEnd (cons : Consumer) (m : Machine) (originalEvent : EventBase)
    (pointerType : PType) (wasPressed : Bool := true) : Machine × Bool :=
  if !m.state.didFirePressStart then (m, false)
  else
    let m := { m with state := { m.state with
      ignoreClickAfterPress := true, didFirePressStart := false, isTriggeringEvent := true } }
    let event := mkPressEvt .pressend pointerType originalEvent
    -- onPressEnd?.(event); dispatchPressEvent(event); onPressChange?.(false)
    let m := pushAction m (.emit event)
    let shouldStopPropagation := !cons.contProp event
    let m := { m with pubPressed := false }
    let res :=
      if wasPressed && !m.opts.isDisabled then
        let event2 := mkPressEvt .press pointerType originalEvent
        -- onPress?.(event2); dispatchPressEvent(event2)
        let m := pushAction m (.emit event2)
        (m, shouldStopPropagation && !cons.contProp event2)
      else (m, shouldStopPropagation)
    ({ res.1 with state := { res.1.state with isTriggeringEvent := false } }, res.2)

/-- `triggerPressUp` (press/create.ts lines 207-218). -/
def triggerPressUp (cons : Consumer) (m : Machine) (originalEvent : EventBase)
    (pointerType : PType) : Machine × Bool :=
  if m.opts.isDisabled then (m, false)
  else
    let m := { m with state := { m.state with isTriggeringEvent := true } }
    let event := mkPressEvt .pressup pointerType originalEvent
    -- onPressUp?.(event); dispatchPressEvent(event)
    let m := pushAction m (.emit event)
    let m := { m with state := { m.state with isTriggeringEvent := false } }
    (m, !cons.contProp event)

/-- `cancel` (press/create.ts lines 220-238). -/
def cancel (cons : Consumer) (m : Machine) (e : EventBase) : Machine :=
  let s := m.state
  match s.target with
  | some tgt =>
    if s.isPressed then
      let m :=
        match s.pointerType with
        | some pt =>
          if s.isOverTarget then (triggerPressEnd cons m (createEvent tgt e) pt false).1 else m
        | none => m
      let m := { m with state := { m.state with
        isPressed := false, isOverTarget := false, activePointerId := none, pointerType := none } }
      let m := removeAllListeners m
      if !m.opts.allowTextSelectionOnPress then pushAction m (.restoreTextSel tgt.id) else m
    else m
  | none => m

/-- `cancelOnPointerExit` (press/create.ts lines 240-244). -/
def cancelOnPointerExit (cons : Consumer) (m : Machine) (e : EventBase) : Machine :=
  if m.opts.shouldCancelOnPointerExit then cancel cons m e else m

/-- Document-level `onKeyUp` (press/create.ts lines 246-297), registered
while a keyboard press is active.  `preventDefault`/`stopPropagation` on the
native event have no engine-state effect and are not traced; dispatching the
synthesized keyups is recorded as `Act.dispatchKeyup` (re-entrant processing
of those dispatched events is outside the modelled boundary). -/
def onKeyUpDoc (cons : Consumer) (m : Machine) (e : KeyEvt) : Machine :=
  let s := m.state
  let metaBranch : Machine → Machine := fun m =>
    if e.key == "Meta" && mapSize s.metaKeyEvents != 0 then
      -- If we recorded keydown events that occurred while the Meta key was
      -- pressed, and those haven't received keyup events already, fire keyup
      -- events ourselves.
      let events := (s.metaKeyEvents.getD []).map (fun p => p.2)
      let m := { m with state := { m.state with metaKeyEvents := none } }
      match s.target with
      | some _ => events.foldl (fun m ev => pushAction m (.dispatchKeyup ev.key)) m
      | none => m
    else m
  match s.target with
  | some tgt =>
    if s.isPressed && isValidKeyboardEvent e.keyData tgt then
      -- shouldPreventDefaultKeyboard → e.preventDefault() (untraced)
      let target := e.target
      let m := (triggerPressEnd cons m (createEvent tgt e.base) .keyboard
        (tgt.containsE target)).1
      let m := removeAllListeners m
      -- If a link was triggered with a key other than Enter, open the URL
      -- ourselves (role override; default browser behavior is Enter-only).
      let m :=
        if e.key != "Enter" && isHTMLAnchorLink tgt && tgt.containsE target && !e.linkClicked
        then pushAction m (.openLinkFire tgt.id)
        else m
      let mke := mapDelete s.metaKeyEvents e.key
      { m with state := { m.state with isPressed := false, metaKeyEvents := mke } }
    else metaBranch m
  | none => metaBranch m

/-- `getBaseHandlers.onKeyDown` (press/create.ts lines 299-341). -/
def onKeyDown (env : Env) (cons : Consumer) (m : Machine) (e : KeyEvt) : Machine :=
  let currentTarget := e.base.currentTarget
  if isValidKeyboardEvent e.keyData currentTarget && currentTarget.containsE e.target then
    -- shouldPreventDefaultKeyboard → e.preventDefault() (untraced)
    let s := m.state
    -- If the event is repeating, ignore it; only handle the first key down.
    let m :=
      if !s.isPressed && !e.repeated then
        let m := { m with state := { m.state with target := some currentTarget, isPressed := true } }
        let m := (triggerPressStart cons m e.base .keyboard).1
        -- register the keyup handler on the document, since focus may move
        addListener m .keyup
      else m
    -- Keep track of the keydown events that occur while the Meta key is held
    -- (macOS bug: keyup events are not fired while the Meta key is down).
    if e.base.metaKey && env.isMac then
      { m with state := { m.state with metaKeyEvents := mapSet s.metaKeyEvents e.key e } }
    else m
  else if e.key == "Meta" then
    { m with state := { m.state with metaKeyEvents := some [] } }
  else m

/-- `getBaseHandlers.onKeyUp` (press/create.ts lines 342-354), the
element-level keyup listener. -/
def onKeyUpEl (cons : Consumer) (m : Machine) (e : KeyEvt) : Machine :=
  let currentTarget := e.base.currentTarget
  let s := m.state
  match s.target with
  | some tgt =>
    if isValidKeyboardEvent e.keyData currentTarget && !e.repeated &&
        currentTarget.containsE e.target then
      (triggerPressUp cons m (createEvent tgt e.base) .keyboard).1
    else m
  | none => m

/-- `getBaseHandlers.onClick` (press/create.ts lines 355-398).  Note the
guard on line 362 reads `(openLink as any).isOpening` (no negation). -/
def onClick (env : Env) (cons : Consumer) (m : Machine) (e : MouseEvt) : Machine :=
  let s := m.state
  let currentTarget := e.base.currentTarget
  if !currentTarget.containsE e.target then m
  else if e.button == 0 && !s.isTriggeringEvent && env.openLinkIsOpening then
    let isDisabled := m.opts.isDisabled
    -- if ($isDisabled) e.preventDefault() (untraced)
    -- If triggered from a screen reader or by using element.click(),
    -- trigger as if it were a keyboard click.
    let m :=
      if !s.ignoreClickAfterPress && !s.ignoreEmulatedMouseEvents && !s.isPressed &&
          (s.pointerType == some .virtual || isVirtualClick e) then
        -- Ensure the element receives focus (VoiceOver on iOS does not)
        let m :=
          if !isDisabled && !m.opts.preventFocusOnPress
          then pushAction m (.focus currentTarget.id)
          else m
        let m := (triggerPressStart cons m e.base .virtual).1
        let m := (triggerPressUp cons m e.base .virtual).1
        (triggerPressEnd cons m e.base .virtual).1
      else m
    { m with state := { m.state with
      ignoreEmulatedMouseEvents := false, ignoreClickAfterPress := false } }
  else m

/-- `getPointerHandlers`' document-level `onPointerMove`
(press/create.ts lines 434-450). -/
def onPointerMoveDoc (cons : Consumer) (m : Machine) (e : PtrEvt) : Machine :=
  let s := m.state
  if some e.pointerId != s.activePointerId then m
  else
    match s.target with
    | some tgt =>
      if isOverTarget e.point tgt then
        match s.pointerType with
        | some pt =>
          if !s.isOverTarget then
            let m := { m with state := { m.state with isOverTarget := true } }
            (triggerPressStart cons m (createEvent tgt e.base) pt).1
          else m
        | none => m
      else
        match s.pointerType with
        | some pt =>
          if s.isOverTarget then
            let m := { m with state := { m.state with isOverTarget := false } }
            let m := (triggerPressEnd cons m (createEvent tgt e.base) pt false).1
            cancelOnPointerExit cons m e.base
          else m
        | none => m
    | none => m

/-- `getPointerHandlers`' document-level `onPointerUp`
(press/create.ts lines 403-430). -/
def onPointerUpDoc (cons : Consumer) (m : Machine) (e : PtrEvt) : Machine :=
  let s := m.state
  match s.target with
  | some tgt =>
    if some e.pointerId == s.activePointerId && s.isPressed && e.button == 0 then
      let m :=
        match s.pointerType with
        | some pt =>
          if isOverTarget e.point tgt then
            (triggerPressEnd cons m (createEvent tgt e.base) pt).1
          else if s.isOverTarget then
            (triggerPressEnd cons m (createEvent tgt e.base) pt false).1
          else m
        | none => m
      let m := { m with state := { m.state with
        isPressed := false, isOverTarget := false, activePointerId := none, pointerType := none } }
      let m := removeAllListeners m
      if !m.opts.allowTextSelectionOnPress then pushAction m (.restoreTextSel tgt.id) else m
    else m
  | none => m

/-- `getPointerHandlers`' document-level `onPointerCancel`
(press/create.ts lines 452-454). -/
def onPointerCancelDoc (cons : Consumer) (m : Machine) (e : PtrEvt) : Machine :=
  cancel cons m e.base

/-- `getPointerHandlers.onPointerDown` (press/create.ts lines 457-508). -/
def onPointerDown (cons : Consumer) (m : Machine) (e : PtrEvt) : Machine :=
  let currentTarget := e.base.currentTarget
  if e.button != 0 || !currentTarget.containsE e.target then m
  else
    let s := m.state
    -- iOS safari fires pointer events from VoiceOver with incorrect
    -- coordinates/target: ignore and let the onClick handler take over.
    if isVirtualPointerEvent e then
      { m with state := { m.state with pointerType := some .virtual } }
    else
      let m := { m with state := { m.state with pointerType := some e.ptype } }
      if !s.isPressed then
        let m := { m with state := { m.state with
          isPressed := true, isOverTarget := true,
          activePointerId := some e.pointerId, target := some currentTarget } }
        let m :=
          if !m.opts.isDisabled && !m.opts.preventFocusOnPress
          then pushAction m (.focus currentTarget.id)
          else m
        let m :=
          if !m.opts.allowTextSelectionOnPress
          then pushAction m (.disableTextSel currentTarget.id)
          else m
        let m := (triggerPressStart cons m e.base e.ptype).1
        let m := addListener m .pointermove
        let m := addListener m .pointerup
        addListener m .pointercancel
      else m

/-- `getPointerHandlers.onMouseDown` (press/create.ts lines 509-526): only
`preventDefault`/`stopPropagation` on the native event, no engine-state
effect. -/
def onMouseDownPtr (m : Machine) (_e : MouseEvt) : Machine :=
  m

/-- `getPointerHandlers.onPointerUp` (press/create.ts lines 527-540), the
element-level pointerup listener. -/
def onPointerUpEl (cons : Consumer) (m : Machine) (e : PtrEvt) : Machine :=
  let currentTarget := e.base.currentTarget
  let s := m.state
  if !currentTarget.containsE e.target || s.pointerType == some PType.virtual then m
  else
    -- Only handle left clicks; Safari on iOS sometimes fires pointerup
    -- events even when the touch is not over the target, so double check.
    if e.button == 0 && isOverTarget e.point currentTarget then
      (triggerPressUp cons m e.base (s.pointerType.getD e.ptype)).1
    else m

/-- `getNonPointerHandlers`' document-level `onMouseUp`
(press/create.ts lines 545-567). -/
def onMouseUpDoc (cons : Consumer) (m : Machine) (e : MouseEvt) : Machine :=
  -- Only handle left clicks
  if e.button != 0 then m
  else
    let s := m.state
    let m := { m with state := { m.state with isPressed := false } }
    let m := removeAllListeners m
    if s.ignoreEmulatedMouseEvents then
      { m with state := { m.state with ignoreEmulatedMouseEvents := false } }
    else
      let m :=
        match s.target, s.pointerType with
        | some tgt, some pt =>
          if isOverTarget e.point tgt then
            (triggerPressEnd cons m (createEvent tgt e.base) pt).1
          else if s.isOverTarget then
            (triggerPressEnd cons m (createEvent tgt e.base) pt false).1
          else m
        | _, _ => m
      { m with state := { m.state with isOverTarget := false } }

/-- `getNonPointerHandlers`' window-level `onScroll`
(press/create.ts lines 569-580).  `scrollTarget` is `e.target`. -/
def onScroll (cons : Consumer) (m : Machine) (scrollTarget : Elem) : Machine :=
  let s := m.state
  match s.target with
  | some tgt =>
    if s.isPressed && scrollTarget.containsE tgt then
      cancel cons m
        { currentTarget := tgt
          shiftKey := false, ctrlKey := false, metaKey := false, altKey := false }
    else m
  | none => m

/-- `getNonPointerHandlers.onMouseDown` (press/create.ts lines 583-622). -/
def onMouseDownNp (cons : Consumer) (m : Machine) (e : MouseEvt) : Machine :=
  let currentTarget := e.base.currentTarget
  let s := m.state
  -- Only handle left clicks
  if e.button != 0 || !currentTarget.containsE e.target then m
  else
    -- shouldPreventDefault → e.preventDefault() (untraced)
    if s.ignoreEmulatedMouseEvents then m
    else
      let pt : PType := if isVirtualClick e then .virtual else .mouse
      let m := { m with state := { m.state with
        isPressed := true, isOverTarget := true,
        target := some currentTarget, pointerType := some pt } }
      let m :=
        if !m.opts.isDisabled && !m.opts.preventFocusOnPress
        then pushAction m (.focus currentTarget.id)
        else m
      let m := (triggerPressStart cons m e.base pt).1
      addListener m .mouseup

/-- `getNonPointerHandlers.onMouseEnter` (press/create.ts lines 623-640). -/
def onMouseEnterNp (cons : Consumer) (m : Machine) (e : MouseEvt) : Machine :=
  let currentTarget := e.base.currentTarget
  if !currentTarget.containsE e.target then m
  else
    let s := m.state
    match s.pointerType with
    | some pt =>
      if s.isPressed && !s.ignoreEmulatedMouseEvents then
        let m := { m with state := { m.state with isOverTarget := true } }
        (triggerPressStart cons m e.base pt).1
      else m
    | none => m

/-- `getNonPointerHandlers.onMouseLeave` (press/create.ts lines 641-659). -/
def onMouseLeaveNp (cons : Consumer) (m : Machine) (e : MouseEvt) : Machine :=
  let currentTarget := e.base.currentTarget
  if !currentTarget.containsE e.target then m
  else
    let s := m.state
    match s.pointerType with
    | some pt =>
      if s.isPressed && !s.ignoreEmulatedMouseEvents then
        let m := { m with state := { m.state with isOverTarget := false } }
        let m := (triggerPressEnd cons m e.base pt false).1
        cancelOnPointerExit cons m e.base
      else m
    | none => m

/-- `getNonPointerHandlers.onMouseUp` (press/create.ts lines 660-670), the
element-level mouseup listener. -/
def onMouseUpElNp (cons : Consumer) (m : Machine) (e : MouseEvt) : Machine :=
  let currentTarget := e.base.currentTarget
  if !currentTarget.containsE e.target then m
  else
    let s := m.state
    if !s.ignoreEmulatedMouseEvents && e.button == 0 then
      (triggerPressUp cons m e.base (s.pointerType.getD .mouse)).1
    else m

/-- `getNonPointerHandlers.onTouchStart` (press/create.ts lines 671-708). -/
def onTouchStart (cons : Consumer) (m : Machine) (e : TouchEvt) : Machine :=
  let currentTarget := e.base.currentTarget
  if !currentTarget.containsE e.target then m
  else
    match getTouchFromEvent e with
    | none => m
    | some touch =>
      let m := { m with state := { m.state with
        activePointerId := some touch.identifier, ignoreEmulatedMouseEvents := true,
        isOverTarget := true, isPressed := true,
        target := some currentTarget, pointerType := some .touch } }
      let m :=
        if !m.opts.isDisabled && !m.opts.preventFocusOnPress
        then pushAction m (.focus currentTarget.id)
        else m
      let m :=
        if !m.opts.allowTextSelectionOnPress
        then pushAction m (.disableTextSel currentTarget.id)
        else m
      let m := (triggerPressStart cons m e.base .touch).1
      addListener m .scroll

/-- `getNonPointerHandlers.onTouchMove` (press/create.ts lines 709-739). -/
def onTouchMove (cons : Consumer) (m : Machine) (e : TouchEvt) : Machine :=
  let currentTarget := e.base.currentTarget
  if !currentTarget.containsE e.target then m
  else
    let s := m.state
    if !s.isPressed then m
    else
      let touch? := getTouchById e s.activePointerId
      match touch? with
      | some touch =>
        if isOverTarget touch.point currentTarget then
          match s.pointerType with
          | some pt =>
            if !s.isOverTarget then
              let m := { m with state := { m.state with isOverTarget := true } }
              (triggerPressStart cons m e.base pt).1
            else m
          | none => m
        else
          match s.pointerType with
          | some pt =>
            if s.isOverTarget then
              let m := { m with state := { m.state with isOverTarget := false } }
              let m := (triggerPressEnd cons m e.base pt false).1
              cancelOnPointerExit cons m e.base
            else m
          | none => m
      | none =>
        match s.pointerType with
        | some pt =>
          if s.isOverTarget then
            let m := { m with state := { m.state with isOverTarget := false } }
            let m := (triggerPressEnd cons m e.base pt false).1
            cancelOnPointerExit cons m e.base
          else m
        | none => m

/-- `getNonPointerHandlers.onTouchEnd` (press/create.ts lines 740-778). -/
def onTouchEnd (cons : Consumer) (m : Machine) (e : TouchEvt) : Machine :=
  let currentTarget := e.base.currentTarget
  if !currentTarget.containsE e.target then m
  else
    let s := m.state
    if !s.isPressed then m
    else
      let touch? := getTouchById e s.activePointerId
      let m :=
        match touch?, s.pointerType with
        | some touch, some pt =>
          if isOverTarget touch.point currentTarget then
            let m := (triggerPressUp cons m e.base pt).1
            (triggerPressEnd cons m e.base pt).1
          else if s.isOverTarget then
            (triggerPressEnd cons m e.base pt false).1
          else m
        | _, some pt =>
          if s.isOverTarget then (triggerPressEnd cons m e.base pt false).1 else m
        | _, none => m
      let m := { m with state := { m.state with
        isPressed := false, activePointerId := none,
        isOverTarget := false, ignoreEmulatedMouseEvents := true } }
      let m :=
        match s.target with
        | some tgt =>
          if !m.opts.allowTextSelectionOnPress then pushAction m (.restoreTextSel tgt.id) else m
        | none => m
      removeAllListeners m

/-- `getNonPointerHandlers.onTouchCancel` (press/create.ts lines 779-791). -/
def onTouchCancel (cons : Consumer) (m : Machine) (e : TouchEvt) : Machine :=
  let currentTarget := e.base.currentTarget
  if !currentTarget.containsE e.target then m
  else if m.state.isPressed then cancel cons m e.base
  else m

/-- `getNonPointerHandlers.onDragStart` (press/create.ts lines 792-800). -/
def onDragStart (cons : Consumer) (m : Machine) (e : MouseEvt) : Machine :=
  let currentTarget := e.base.currentTarget
  if !currentTarget.containsE e.target then m
  else cancel cons m e.base

/-- One raw input to the bound engine: a native DOM event delivered to a
specific listener (element-level or document/window-level), or a runtime
update of one of the writable option stores. -/
inductive InEvt where
  | keydown (e : KeyEvt)
  | keyupEl (e : KeyEvt)
  | keyupDoc (e : KeyEvt)
  | click (e : MouseEvt)
  | pointerdown (e : PtrEvt)
  | pointermoveDoc (e : PtrEvt)
  | pointerupDoc (e : PtrEvt)
  | pointercancelDoc (e : PtrEvt)
  | pointerupEl (e : PtrEvt)
  | mousedownPtr (e : MouseEvt)
  | mousedownNp (e : MouseEvt)
  | mouseenterNp (e : MouseEvt)
  | mouseleaveNp (e : MouseEvt)
  | mouseupElNp (e : MouseEvt)
  | mouseupDocNp (e : MouseEvt)
  | touchstartNp (e : TouchEvt)
  | touchmoveNp (e : TouchEvt)
  | touchendNp (e : TouchEvt)
  | touchcancelNp (e : TouchEvt)
  | dragstartNp (e : MouseEvt)
  | scrollDoc (tgt : Elem)
  | setDisabled (b : Bool)
  | setPreventFocusOnPress (b : Bool)
  | setCancelOnPointerExit (b : Bool)
  | setAllowTextSelection (b : Bool)

/-- Event dispatch for one engine instance (`pressAction`, press/create.ts
lines 804-851): keyboard and click listeners are always bound; the pointer
adapter is bound when `typeof PointerEvent !== 'undefined'`
(`env.pointerPlatform`), the mouse+touch fallback otherwise; document- and
window-level handlers only run while their listener is registered. -/
def step (env : Env) (cons : Consumer) (m : Machine) (ev : InEvt) : Machine :=
  match ev with
  | .keydown e => onKeyDown env cons m e
  | .keyupEl e => onKeyUpEl cons m e
  | .keyupDoc e => if m.listeners.contains .keyup then onKeyUpDoc cons m e else m
  | .click e => onClick env cons m e
  | .pointerdown e => if env.pointerPlatform then onPointerDown cons m e else m
  | .pointermoveDoc e =>
    if env.pointerPlatform && m.listeners.contains .pointermove
    then onPointerMoveDoc cons m e else m
  | .pointerupDoc e =>
    if env.pointerPlatform && m.listeners.contains .pointerup
    then onPointerUpDoc cons m e else m
  | .pointercancelDoc e =>
    if env.pointerPlatform && m.listeners.contains .pointercancel
    then onPointerCancelDoc cons m e else m
  | .pointerupEl e => if env.pointerPlatform then onPointerUpEl cons m e else m
  | .mousedownPtr e => if env.pointerPlatform then onMouseDownPtr m e else m
  | .mousedownNp e => if !env.pointerPlatform then onMouseDownNp cons m e else m
  | .mouseenterNp e => if !env.pointerPlatform then onMouseEnterNp cons m e else m
  | .mouseleaveNp e => if !env.pointerPlatform then onMouseLeaveNp cons m e else m
  | .mouseupElNp e => if !env.pointerPlatform then onMouseUpElNp cons m e else m
  | .mouseupDocNp e =>
    if !env.pointerPlatform && m.listeners.contains .mouseup
    then onMouseUpDoc cons m e else m
  | .touchstartNp e => if !env.pointerPlatform then onTouchStart cons m e else m
  | .touchmoveNp e => if !env.pointerPlatform then onTouchMove cons m e else m
  | .touchendNp e => if !env.pointerPlatform then onTouchEnd cons m e else m
  | .touchcancelNp e => if !env.pointerPlatform then onTouchCancel cons m e else m
  | .dragstartNp e => if !env.pointerPlatform then onDragStart cons m e else m
  | .scrollDoc tgt =>
    if !env.pointerPlatform && m.listeners.contains .scroll
    then onScroll cons m tgt else m
  | .setDisabled b => { m with opts := { m.opts with isDisabled := b } }
  | .setPreventFocusOnPress b => { m with opts := { m.opts with preventFocusOnPress := b } }
  | .setCancelOnPointerExit b => { m with opts := { m.opts with shouldCancelOnPointerExit := b } }
  | .setAllowTextSelection b => { m with opts := { m.opts with allowTextSelectionOnPress := b } }

/-- Run the engine from its initial state over a sequence of inputs. -/
def run (env : Env) (cons : Consumer) (opts : Opts) (evs : List InEvt) : Machine :=
  evs.foldl (step env cons) (initMachine opts)

/-- Number of emitted press events of a given lifecycle type in a trace. -/
def countPress (tr : List Act) (t : PressType) : Nat :=
  tr.countP (fun a => match a with | .emit e => e.type == t | _ => false)

/-- The public/internal press-flag coupling: the read-only `isPressed` store
always mirrors the internal `didFirePressStart` flag. -/
def InvPub (m : Machine) : Prop :=
  m.pubPressed = m.state.didFirePressStart

/-- The spec's pointer-type invariant: `pointerType` is non-null whenever
the internal `state.isPressed` flag is true. -/
def InvPtr (m : Machine) : Prop :=
  m.state.isPressed = true → m.state.pointerType ≠ none

/-- Whether an input is a `keydown` delivery. -/
def isKeydownEvt : InEvt → Bool
  | .keydown _ => true
  | _ => false

/-- The point's derived rectangle as C7 words it: centered on the point and
inflated horizontally by `width/2` if `width` is given, else by `radiusX`,
else `0`, and vertically by `height/2` if `height` is given, else by
`radiusY`, else `0`. -/
def claimDerivedRect (p : EventPoint) : Rect :=
  let dx : ℚ := match p.width with
    | some w => w / 2
    | none => match p.radiusX with | some rx => rx | none => 0
  let dy : ℚ := match p.height with
    | some h => h / 2
    | none => match p.radiusY with | some ry => ry | none => 0
  { left := p.clientX - dx, right := p.clientX + dx
    top := p.clientY - dy, bottom := p.clientY + dy }

/-- C7's overlap reading: two axis-aligned rectangles overlap unless one
lies strictly to the left/right of the other or strictly above/below the
other (touching edges count as overlapping). -/
def claimRectOverlap (a b : Rect) : Prop :=
  a.left ≤ b.right ∧ b.left ≤ a.right ∧ a.top ≤ b.bottom ∧ b.top ≤ a.bottom

/-- C8's acceptance condition exactly as the claim states it: the key is
Enter, `' '`, `'Spacebar'`, or the code is `'Space'`; the element is not a
text-entry-capable input; and it is not the case that the element is
anchor-like or has `role="link"` while the key is not Enter. -/
def claimedKeyAccept (event : KeyData) (element : Elem) : Bool :=
  (event.key == "Enter" || event.key == " " || event.key == "Spacebar" ||
      event.code == "Space") &&
    !((isInputElement element && !isValidInputKey element event.key) ||
      isTextAreaElement element ||
      element.isContentEditable) &&
    !((isHTMLAnchorLink element || element.role == some "link") && event.key != "Enter")

/- Concrete fixtures used by counterexamples and witnesses. -/

/-- A plain `<button type="submit">` with bounding rect `[0,10] × [0,10]`. -/
def btn : Elem := { id := 1, tag := "BUTTON", typeAttr := "submit", rect := ⟨0, 10, 10, 0⟩ }

/-- An `<a href=…>` carrying a `role="button"` override. -/
def anchorRoleBtn : Elem := { id := 2, tag := "A", hasHref := true, role := some "button" }

/-- A consumer that never calls `continuePropagation`. -/
def cons0 : Consumer := ⟨fun _ => false⟩

/-- Default configuration (press/create.ts lines 100-106). -/
def opts0 : Opts := {}

/-- Configuration with `shouldCancelOnPointerExit: true`. -/
def optsExit : Opts := { shouldCancelOnPointerExit := true }

/-- Default environment: pointer-capable, not macOS, `openLink` idle. -/
def envDefault : Env := {}

/-- macOS environment. -/
def envMac : Env := { isMac := true }

/-- Environment during an `openLink`-dispatched click (`isOpening` true). -/
def envOpening : Env := { openLinkIsOpening := true }

/-- A `button`-0 click on the button that the virtual-click heuristic
recognizes (e.g. `element.click()`, which yields `detail === 0`). -/
def clickVirtual : MouseEvt :=
  { base := { currentTarget := btn }, button := 0, target := btn, virtualHeuristic := true }

/-- `keydown` for `Enter` on the button. -/
def enterKeydown : KeyEvt := { base := { currentTarget := btn }, key := "Enter", target := btn }

/-- `keydown` for `'a'` while the Meta key is held. -/
def aMetaKeydown : KeyEvt :=
  { base := { currentTarget := btn, metaKey := true }, key := "a", target := btn }

/-- `keydown` for `'Meta'` itself. -/
def metaKeydown : KeyEvt :=
  { base := { currentTarget := btn, metaKey := true }, key := "Meta", target := btn }

/-- `keyup` for `'Meta'`. -/
def metaKeyup : KeyEvt := { base := { currentTarget := btn }, key := "Meta", target := btn }

/-- `keydown` for `Enter` while the Meta key is held. -/
def enterMetaKeydown : KeyEvt :=
  { base := { currentTarget := btn, metaKey := true }, key := "Enter", target := btn }

/-- `pointerdown` (mouse, button 0, pointerId 7) inside the button's rect. -/
def pdownInside : PtrEvt :=
  { base := { currentTarget := btn }, pointerId := 7, target := btn
    point := { clientX := 5, clientY := 5 } }

/-- `pointermove` of pointer 7 to a point outside the button's rect. -/
def pmoveOutside : PtrEvt :=
  { base := { currentTarget := btn }, pointerId := 7, target := btn
    point := { clientX := 50, clientY := 50 } }

/-- `pointermove` of pointer 7 back inside the button's rect. -/
def pmoveInside : PtrEvt :=
  { base := { currentTarget := btn }, pointerId := 7, target := btn
    point := { clientX := 5, clientY := 5 } }

/-- Engine mid-pointer-press (after `pointerdown` inside the target). -/
def midPress : Machine := run envDefault cons0 opts0 [.pointerdown pdownInside]

/-- Engine mid-pointer-press with `shouldCancelOnPointerExit: true`. -/
def midPressExit : Machine := run envDefault cons0 optsExit [.pointerdown pdownInside]

/-- A ' ' (Space) `keydown` key data. -/
def spaceKey : KeyData := { key := " " }

/-- Engine mid-pointer-press that was disabled after the press started. -/
def midPressDisabled : Machine :=
  run envDefault cons0 opts0 [.pointerdown pdownInside, .setDisabled true]

/-- A bare origin event on the button, for direct trigger invocations. -/
def baseOnBtn : EventBase := { currentTarget := btn }

/-- C1: evaluation of the click handler at the claim's scenario.  A click
with button 0, `isTriggeringEvent` false, no prior press and the
virtual-click heuristic satisfied leaves the engine completely unchanged —
no focus, no `pressstart`/`pressup`/`pressend`/`press` — because the guard
on press/create.ts line 362 requires `(openLink as any).isOpening` to be
*true*, and that module flag is false except while `openLink` itself is
dispatching a click.  Were the guard negated (equivalently: evaluating the
handler with `isOpening` true), the handler would do exactly what the claim
describes: focus the target first, then emit the virtual
`pressstart`/`pressup`/`pressend`/`press` sequence. -/
theorem click_virtual_triplet_requires_isOpening :
    onClick envDefault cons0 (initMachine opts0) clickVirtual = initMachine opts0 ∧
    (onClick envOpening cons0 (initMachine opts0) clickVirtual).trace =
      [.focus btn.id,
       .emit (mkPressEvt .pressstart .virtual clickVirtual.base),
       .emit (mkPressEvt .pressup .virtual clickVirtual.base),
       .emit (mkPressEvt .pressend .virtual clickVirtual.base),
       .emit (mkPressEvt .press .virtual clickVirtual.base)] :=
  ⟨rfl, rfl⟩

/-- C2 counterexample: a single keyboard `keydown` for Enter on a plain
button starts a press (`state.isPressed` becomes true) while
`state.pointerType` remains null — the keydown path never records a pointer
type, refuting the claimed invariant as stated. -/
theorem keydown_press_pointerType_null :
    (run envDefault cons0 opts0 [.keydown enterKeydown]).state.isPressed = true ∧
    (run envDefault cons0 opts0 [.keydown enterKeydown]).state.pointerType = none :=
  ⟨rfl, rfl⟩

/-- C3 counterexample: the claim's exact sequence — `keydown` for `'a'`
while `metaKey` is true, then `keydown` for `'Meta'`, then `keyup` for
`'Meta'`, on a Mac — produces an empty trace: no synthesized `keyup` for
`'a'` is dispatched (indeed no observable effect at all).  `'a'` is not a
press-activation key, so its keydown is never recorded, and no press ever
starts, so the document-level keyup listener that performs the replay is
never registered. -/
theorem meta_claim_sequence_no_synthesized_keyup :
    (run envMac cons0 opts0
      [.keydown aMetaKeydown, .keydown metaKeydown,
       .keyupEl metaKeyup, .keyupDoc metaKeyup]).trace = [] :=
  rfl

/-- C3 amended: on a Mac, after `keydown` for `'Meta'` (which creates the
recording map), a `keydown` for `'Enter'` with `metaKey` true on the bound
button (which starts a press, registers the document keyup listener, and is
recorded in the map), processing Meta's `keyup` with no intervening `keyup`
for `'Enter'` dispatches a synthesized `keyup` for `'Enter'` on the
recorded target. -/
theorem meta_recovery_replays_recorded_keyup :
    (run envMac cons0 opts0
      [.keydown metaKeydown, .keydown enterMetaKeydown,
       .keyupEl metaKeyup, .keyupDoc metaKeyup]).trace =
      [.emit (mkPressEvt .pressstart .keyboard enterMetaKeydown.base),
       .dispatchKeyup "Enter"] :=
  rfl

/-- C8 counterexample: an href-bearing anchor carrying the role override
`role="button"`, receiving the Space key, is accepted by
`isValidKeyboardEvent` (the anchor suppression only applies when
`role="link"` or when the anchor has no role attribute), while the claim as
stated ("the element is anchor-like or has role=link") rejects it. -/
theorem anchor_role_override_space_counterexample :
    isValidKeyboardEvent spaceKey anchorRoleBtn = true ∧
    claimedKeyAccept spaceKey anchorRoleBtn = false :=
  ⟨rfl, rfl⟩

/-- Helper for C7: `areRectanglesOverlapping` decides exactly the claim's
overlap reading. -/
theorem areRect_iff (a b : Rect) :
    areRectanglesOverlapping a b = true ↔ claimRectOverlap a b := by
  have haux : ∀ (c c' : Bool),
      ((if c then false else if c' then false else true) = true ↔ (c = false ∧ c' = false)) := by
    decide
  unfold areRectanglesOverlapping claimRectOverlap
  rw [haux]
  simp only [Bool.or_eq_false_iff, decide_eq_false_iff_not, not_lt]
  tauto

/-- C7: for every point (with optional contact dimensions) and every target
element, the hit test `isOverTarget` holds exactly when the target's
bounding rectangle and the point's derived rectangle (centered on the
point, inflated by half the contact width/height, else the radius, else
zero) overlap as axis-aligned rectangles, touching edges counting as
overlap. -/
theorem isOverTarget_iff_claimOverlap (p : EventPoint) (tgt : Elem) :
    isOverTarget p tgt = true ↔ claimRectOverlap tgt.rect (claimDerivedRect p) := by
  have hrect : claimDerivedRect p = getPointClientRect p := rfl
  unfold isOverTarget
  rw [areRect_iff, hrect]

/-- C8 amended: `isValidKeyboardEvent` accepts exactly when the key is
Enter, `' '`, `'Spacebar'`, or the code is `'Space'`; the element is not a
text-entry-capable input (`<input>` failing the non-text-input check,
`<textarea>`, or content-editable); and it is not the case that the element
has `role="link"`, or is an href-bearing anchor whose `role` attribute is
**absent or empty** (JS-falsy), while the key is not Enter (an anchor
carrying a non-empty role override other than `link` is not suppressed). -/
theorem isValidKeyboardEvent_iff (e : KeyData) (el : Elem) :
    isValidKeyboardEvent e el = true ↔
      ((e.key = "Enter" ∨ e.key = " " ∨ e.key = "Spacebar" ∨ e.code = "Space") ∧
       ¬((isInputElement el = true ∧ ¬ isValidInputKey el e.key = true) ∨
         isTextAreaElement el = true ∨ el.isContentEditable = true) ∧
       ¬((el.role = some "link" ∨ (roleIsFalsy el.role = true ∧ isHTMLAnchorLink el = true)) ∧
         e.key ≠ "Enter")) := by
  unfold isValidKeyboardEvent
  simp only [Bool.and_eq_true, Bool.or_eq_true, Bool.not_eq_true',
    Bool.or_eq_false_iff, Bool.and_eq_false_iff, Bool.not_eq_false',
    beq_iff_eq, beq_eq_false_iff_ne, bne_iff_ne, bne_eq_false_iff_eq, ne_eq,
    not_or, not_and, Bool.eq_false_iff]
  tauto

/-- Boundary case of the `!role` truthiness: an href-bearing anchor whose
`role` attribute is present but *empty* is still suppressed for Space,
exactly like an anchor with no role attribute. -/
theorem anchor_empty_role_space_rejected :
    isValidKeyboardEvent spaceKey
      { id := 3, tag := "A", hasHref := true, role := some "" } = false :=
  rfl

/-- Helper: counting over a concatenated trace. -/
theorem countPress_append (tr l : List Act) (t : PressType) :
    countPress (tr ++ l) t = countPress tr t + countPress l t := by
  unfold countPress
  exact List.countP_append _ _ _

/-- C4: for every engine state and every pair of origin events, two
successive `triggerPressStart` calls with no intervening `triggerPressEnd`
leave the machine exactly where the first call left it, the second call
returns `false`, and at most one `pressstart` is emitted — exactly one when
the engine is enabled and no start was already pending, zero otherwise; in
particular a call while the engine is disabled emits nothing and leaves the
machine unchanged. -/
theorem triggerPressStart_twice (cons : Consumer) (m : Machine)
    (e1 e2 : EventBase) (pt1 pt2 : PType) :
    (triggerPressStart cons (triggerPressStart cons m e1 pt1).1 e2 pt2).1 =
        (triggerPressStart cons m e1 pt1).1 ∧
    (triggerPressStart cons (triggerPressStart cons m e1 pt1).1 e2 pt2).2 = false ∧
    countPress (triggerPressStart cons (triggerPressStart cons m e1 pt1).1 e2 pt2).1.trace
        PressType.pressstart =
      countPress m.trace .pressstart +
        (if m.opts.isDisabled = false ∧ m.state.didFirePressStart = false then 1 else 0) ∧
    (m.opts.isDisabled = true → (triggerPressStart cons m e1 pt1).1 = m) := by
  by_cases hd : m.opts.isDisabled
  · simp [triggerPressStart, hd]
  · by_cases hf : m.state.didFirePressStart
    · simp [triggerPressStart, hd, hf]
    · simp [triggerPressStart, hd, hf, pushAction, countPress, List.countP_append,
        List.countP_cons, mkPressEvt]

/-- C4 witness: the double call at the freshly-created enabled engine emits
exactly one `pressstart`, and a call on a disabled engine is the identity. -/
theorem triggerPressStart_twice_witness :
    (initMachine { isDisabled := true }).opts.isDisabled = true ∧
    (triggerPressStart cons0 (initMachine { isDisabled := true }) baseOnBtn .mouse).1 =
      initMachine { isDisabled := true } ∧
    countPress (triggerPressStart cons0
        (triggerPressStart cons0 (initMachine opts0) baseOnBtn .mouse).1
        baseOnBtn .mouse).1.trace .pressstart =
      countPress (initMachine opts0).trace .pressstart + 1 := by
  refine ⟨rfl, ?_, ?_⟩
  · exact (triggerPressStart_twice cons0 (initMachine { isDisabled := true })
      baseOnBtn baseOnBtn .mouse .mouse).2.2.2 rfl
  · simpa using (triggerPressStart_twice cons0 (initMachine opts0)
      baseOnBtn baseOnBtn .mouse .mouse).2.2.1

/-- C5: from a state with a start pending (`didFirePressStart` true) on an
engine that has since been disabled, `triggerPressEnd` with
`wasPressed = true` still emits exactly one `pressend` and flips the public
`isPressed` observable to false, but emits no terminal `press`. -/
theorem disable_mid_press_suppresses_press (cons : Consumer) (m : Machine)
    (e : EventBase) (pt : PType)
    (hD : m.state.didFirePressStart = true) (hDis : m.opts.isDisabled = true) :
    countPress (triggerPressEnd cons m e pt true).1.trace .pressend =
        countPress m.trace .pressend + 1 ∧
    countPress (triggerPressEnd cons m e pt true).1.trace .press =
        countPress m.trace .press ∧
    (triggerPressEnd cons m e pt true).1.pubPressed = false := by
  simp [triggerPressEnd, hD, hDis, pushAction, countPress, List.countP_append,
    List.countP_cons, mkPressEvt]

/-- C5 witness: concrete engine that was disabled after a `pointerdown`
press started. -/
theorem disable_mid_press_suppresses_press_witness :
    midPressDisabled.state.didFirePressStart = true ∧
    midPressDisabled.opts.isDisabled = true ∧
    countPress (triggerPressEnd cons0 midPressDisabled baseOnBtn .mouse true).1.trace .pressend =
        countPress midPressDisabled.trace .pressend + 1 ∧
    countPress (triggerPressEnd cons0 midPressDisabled baseOnBtn .mouse true).1.trace .press =
        countPress midPressDisabled.trace .press ∧
    (triggerPressEnd cons0 midPressDisabled baseOnBtn .mouse true).1.pubPressed = false := by
  refine ⟨rfl, rfl, ?_⟩
  exact disable_mid_press_suppresses_press cons0 midPressDisabled baseOnBtn .mouse rfl rfl

/-- C6: `triggerPressUp` is a no-op returning `false` exactly when the
engine is disabled; when enabled it emits exactly one `pressup` regardless
of whether a start is pending (`didFirePressStart` plays no role in it);
whereas `triggerPressEnd` with no pending start is a no-op returning
`false`. -/
theorem triggerPressUp_unpaired (cons : Consumer) (m : Machine) (e : EventBase)
    (pt : PType) (w : Bool) :
    (m.opts.isDisabled = true → triggerPressUp cons m e pt = (m, false)) ∧
    (m.opts.isDisabled = false →
      countPress (triggerPressUp cons m e pt).1.trace .pressup =
        countPress m.trace .pressup + 1) ∧
    (m.state.didFirePressStart = false → triggerPressEnd cons m e pt w = (m, false)) := by
  refine ⟨fun hd => ?_, fun hd => ?_, fun hf => ?_⟩
  · simp [triggerPressUp, hd]
  · simp [triggerPressUp, hd, pushAction, countPress, List.countP_append,
      List.countP_cons, mkPressEvt]
  · simp [triggerPressEnd, hf]

/-- C6 witness: a disabled engine (no-op), an enabled mid-press engine
(with a pending start, `pressup` still emitted), and a fresh engine with no
pending start (`triggerPressEnd` no-op). -/
theorem triggerPressUp_unpaired_witness :
    (initMachine { isDisabled := true }).opts.isDisabled = true ∧
    triggerPressUp cons0 (initMachine { isDisabled := true }) baseOnBtn .mouse =
      (initMachine { isDisabled := true }, false) ∧
    midPress.opts.isDisabled = false ∧
    midPress.state.didFirePressStart = true ∧
    countPress (triggerPressUp cons0 midPress baseOnBtn .mouse).1.trace .pressup =
      countPress midPress.trace .pressup + 1 ∧
    (initMachine opts0).state.didFirePressStart = false ∧
    triggerPressEnd cons0 (initMachine opts0) baseOnBtn .mouse true =
      (initMachine opts0, false) := by
  refine ⟨rfl, ?_, rfl, rfl, ?_, rfl, ?_⟩
  · exact (triggerPressUp_unpaired cons0 (initMachine { isDisabled := true })
      baseOnBtn .mouse true).1 rfl
  · exact (triggerPressUp_unpaired cons0 midPress baseOnBtn .mouse true).2.1 rfl
  · exact (triggerPressUp_unpaired cons0 (initMachine opts0) baseOnBtn .mouse true).2.2 rfl

/-- Helper: a `pointermove` is ignored entirely when no active pointer is
being tracked (`e.pointerId !== state.activePointerId` with a null id). -/
theorem onPointerMoveDoc_inactive (cons : Consumer) (m : Machine) (e : PtrEvt)
    (h : m.state.activePointerId = none) : onPointerMoveDoc cons m e = m := by
  simp [onPointerMoveDoc, h]

/-- Helper: any sequence of `pointermove`s is ignored once the active
pointer identity has been cleared. -/
theorem foldl_moves_inactive (cons : Consumer) (m : Machine)
    (h : m.state.activePointerId = none) (es : List PtrEvt) :
    es.foldl (onPointerMoveDoc cons) m = m := by
  induction es with
  | nil => rfl
  | cons e es ih => rw [List.foldl_cons, onPointerMoveDoc_inactive cons m e h]; exact ih

/-- C9: during a pointer press (active pointer `pid`, over-target, start
pending), a `pointermove` of that pointer to a point outside the target's
hit area emits one `pressend` and no `press`; if
`shouldCancelOnPointerExit` is false, a later `pointermove` back inside the
hit area emits a fresh `pressstart`; if the flag is true, the exit cancels
the whole interaction — the active pointer identity is cleared and no
sequence of further `pointermove`s (re-entering or not) ever emits another
`pressstart`. -/
theorem pointer_exit_reenter (cons : Consumer) (m : Machine) (pid : Nat) (tgt : Elem)
    (pt : PType) (e1 e2 : PtrEvt)
    (hP : m.state.isPressed = true)
    (hA : m.state.activePointerId = some pid)
    (hT : m.state.target = some tgt)
    (hO : m.state.isOverTarget = true)
    (hPt : m.state.pointerType = some pt)
    (hD : m.state.didFirePressStart = true)
    (hDis : m.opts.isDisabled = false)
    (he1 : e1.pointerId = pid) (ho1 : isOverTarget e1.point tgt = false)
    (he2 : e2.pointerId = pid) (ho2 : isOverTarget e2.point tgt = true) :
    (m.opts.shouldCancelOnPointerExit = false →
      countPress (onPointerMoveDoc cons m e1).trace .pressend =
          countPress m.trace .pressend + 1 ∧
      countPress (onPointerMoveDoc cons m e1).trace .press = countPress m.trace .press ∧
      countPress (onPointerMoveDoc cons (onPointerMoveDoc cons m e1) e2).trace .pressstart =
        countPress (onPointerMoveDoc cons m e1).trace .pressstart + 1) ∧
    (m.opts.shouldCancelOnPointerExit = true →
      countPress (onPointerMoveDoc cons m e1).trace .pressend =
          countPress m.trace .pressend + 1 ∧
      countPress (onPointerMoveDoc cons m e1).trace .press = countPress m.trace .press ∧
      (onPointerMoveDoc cons m e1).state.activePointerId = none ∧
      ∀ es : List PtrEvt,
        countPress (es.foldl (onPointerMoveDoc cons) (onPointerMoveDoc cons m e1)).trace
            .pressstart =
          countPress (onPointerMoveDoc cons m e1).trace .pressstart) := by
  constructor
  · intro hF
    refine ⟨?_, ?_, ?_⟩ <;>
      simp [onPointerMoveDoc, triggerPressEnd, triggerPressStart, cancelOnPointerExit,
        hA, he1, he2, hT, hPt, hO, ho1, ho2, hD, hDis, hF, hP, pushAction, createEvent,
        mkPressEvt, countPress, List.countP_append, List.countP_cons]
  · intro hF
    by_cases hTS : m.opts.allowTextSelectionOnPress
    all_goals
      refine ⟨?_, ?_, ?_, ?_⟩
      · simp [onPointerMoveDoc, triggerPressEnd, cancelOnPointerExit, cancel,
          removeAllListeners, hA, he1, hT, hPt, hO, ho1, hD, hF, hP, hTS, pushAction,
          createEvent, mkPressEvt, countPress, List.countP_append, List.countP_cons]
      · simp [onPointerMoveDoc, triggerPressEnd, cancelOnPointerExit, cancel,
          removeAllListeners, hA, he1, hT, hPt, hO, ho1, hD, hF, hP, hTS, pushAction,
          createEvent, mkPressEvt, countPress, List.countP_append, List.countP_cons]
      · simp [onPointerMoveDoc, triggerPressEnd, cancelOnPointerExit, cancel,
          removeAllListeners, hA, he1, hT, hPt, hO, ho1, hD, hF, hP, hTS, pushAction,
          createEvent, mkPressEvt, countPress, List.countP_append, List.countP_cons]
      · intro es
        rw [foldl_moves_inactive]
        simp [onPointerMoveDoc, triggerPressEnd, cancelOnPointerExit, cancel,
          removeAllListeners, hA, he1, hT, hPt, hO, ho1, hD, hF, hP, hTS, pushAction,
          createEvent, mkPressEvt]

/-- C9 witness: concrete mid-press engines — with the exit flag off, exit
then re-entry of pointer 7 emits `pressend` then a fresh `pressstart`; with
the flag on, exit clears the pointer identity. -/
theorem pointer_exit_reenter_witness :
    (countPress (onPointerMoveDoc cons0 midPress pmoveOutside).trace .pressend =
        countPress midPress.trace .pressend + 1 ∧
      countPress (onPointerMoveDoc cons0 midPress pmoveOutside).trace .press =
        countPress midPress.trace .press ∧
      countPress (onPointerMoveDoc cons0 (onPointerMoveDoc cons0 midPress pmoveOutside)
          pmoveInside).trace .pressstart =
        countPress (onPointerMoveDoc cons0 midPress pmoveOutside).trace .pressstart + 1) ∧
    ((onPointerMoveDoc cons0 midPressExit pmoveOutside).state.activePointerId = none) := by
  constructor
  · exact (pointer_exit_reenter cons0 midPress 7 btn .mouse pmoveOutside pmoveInside
      rfl rfl rfl rfl rfl rfl rfl rfl
      (by simp [isOverTarget, areRectanglesOverlapping, getPointClientRect, pmoveOutside, btn]; norm_num) rfl
      (by simp [isOverTarget, areRectanglesOverlapping, getPointClientRect, pmoveInside, btn]; norm_num)).1 rfl
  · exact ((pointer_exit_reenter cons0 midPressExit 7 btn .mouse pmoveOutside pmoveInside
      rfl rfl rfl rfl rfl rfl rfl rfl
      (by simp [isOverTarget, areRectanglesOverlapping, getPointClientRect, pmoveOutside, btn]; norm_num) rfl
      (by simp [isOverTarget, areRectanglesOverlapping, getPointClientRect, pmoveInside, btn]; norm_num)).2 rfl).2.2.1

/- Projection helpers: recording a trace action or (un)registering global
listeners never touches the option stores, the interaction state, or the
public `isPressed` store. -/

@[simp] theorem pushAction_pub (m : Machine) (a : Act) :
    (pushAction m a).pubPressed = m.pubPressed := rfl

@[simp] theorem pushAction_state (m : Machine) (a : Act) :
    (pushAction m a).state = m.state := rfl

@[simp] theorem pushAction_opts (m : Machine) (a : Act) :
    (pushAction m a).opts = m.opts := rfl

@[simp] theorem addListener_pub (m : Machine) (k : GListener) :
    (addListener m k).pubPressed = m.pubPressed := by
  unfold addListener; split <;> rfl

@[simp] theorem addListener_state (m : Machine) (k : GListener) :
    (addListener m k).state = m.state := by
  unfold addListener; split <;> rfl

@[simp] theorem addListener_opts (m : Machine) (k : GListener) :
    (addListener m k).opts = m.opts := by
  unfold addListener; split <;> rfl

@[simp] theorem removeAllListeners_pub (m : Machine) :
    (removeAllListeners m).pubPressed = m.pubPressed := rfl

@[simp] theorem removeAllListeners_state (m : Machine) :
    (removeAllListeners m).state = m.state := rfl

@[simp] theorem removeAllListeners_opts (m : Machine) :
    (removeAllListeners m).opts = m.opts := rfl

@[simp] theorem foldl_dispatch_pub (l : List KeyEvt) (m : Machine) :
    (l.foldl (fun m ev => pushAction m (Act.dispatchKeyup ev.key)) m).pubPressed =
      m.pubPressed := by
  induction l generalizing m with
  | nil => rfl
  | cons a l ih => rw [List.foldl_cons]; exact ih _

@[simp] theorem foldl_dispatch_state (l : List KeyEvt) (m : Machine) :
    (l.foldl (fun m ev => pushAction m (Act.dispatchKeyup ev.key)) m).state = m.state := by
  induction l generalizing m with
  | nil => rfl
  | cons a l ih => rw [List.foldl_cons]; exact ih _

/- `InvPub` preservation: only `triggerPressStart` / `triggerPressEnd`
write `didFirePressStart` and the public store, and they write the pair
together. -/

theorem invPub_congr (m m' : Machine) (h : InvPub m)
    (h1 : m'.pubPressed = m.pubPressed)
    (h2 : m'.state.didFirePressStart = m.state.didFirePressStart) : InvPub m' := by
  unfold InvPub at *
  rw [h1, h2]
  exact h

theorem invPub_triggerPressStart (cons : Consumer) (m : Machine) (e : EventBase)
    (pt : PType) (h : InvPub m) : InvPub (triggerPressStart cons m e pt).1 := by
  unfold InvPub at h ⊢
  simp only [triggerPressStart]
  repeat' split
  all_goals simp_all

theorem invPub_triggerPressEnd (cons : Consumer) (m : Machine) (e : EventBase)
    (pt : PType) (w : Bool) (h : InvPub m) : InvPub (triggerPressEnd cons m e pt w).1 := by
  unfold InvPub at h ⊢
  simp only [triggerPressEnd]
  repeat' split
  all_goals simp_all

theorem invPub_triggerPressUp (cons : Consumer) (m : Machine) (e : EventBase)
    (pt : PType) (h : InvPub m) : InvPub (triggerPressUp cons m e pt).1 := by
  unfold InvPub at h ⊢
  simp only [triggerPressUp]
  repeat' split
  all_goals simp_all

theorem invPub_onKeyDown (env : Env) (cons : Consumer) (m : Machine) (e : KeyEvt)
    (h : InvPub m) : InvPub (onKeyDown env cons m e) := by
  unfold InvPub at h ⊢
  simp only [onKeyDown]
  repeat' split
  all_goals try simp only [triggerPressStart]
  all_goals repeat' split
  all_goals simp_all

theorem invPub_onKeyUpDoc (cons : Consumer) (m : Machine) (e : KeyEvt)
    (h : InvPub m) : InvPub (onKeyUpDoc cons m e) := by
  unfold InvPub at h ⊢
  simp only [onKeyUpDoc]
  repeat' split
  all_goals try simp only [triggerPressEnd]
  all_goals repeat' split
  all_goals simp_all

theorem invPub_onKeyUpEl (cons : Consumer) (m : Machine) (e : KeyEvt)
    (h : InvPub m) : InvPub (onKeyUpEl cons m e) := by
  unfold InvPub at h ⊢
  simp only [onKeyUpEl]
  repeat' split
  all_goals try simp only [triggerPressUp]
  all_goals repeat' split
  all_goals simp_all

theorem invPub_onClick (env : Env) (cons : Consumer) (m : Machine) (e : MouseEvt)
    (h : InvPub m) : InvPub (onClick env cons m e) := by
  unfold InvPub at h ⊢
  simp only [onClick]
  repeat' split
  all_goals try simp only [triggerPressStart, triggerPressEnd, triggerPressUp]
  all_goals repeat' split
  all_goals simp_all

theorem invPub_cancel (cons : Consumer) (m : Machine) (e : EventBase)
    (h : InvPub m) : InvPub (cancel cons m e) := by
  unfold InvPub at h ⊢
  simp only [cancel]
  repeat' split
  all_goals try simp only [triggerPressEnd]
  all_goals repeat' split
  all_goals simp_all

theorem invPub_cancelOnPointerExit (cons : Consumer) (m : Machine) (e : EventBase)
    (h : InvPub m) : InvPub (cancelOnPointerExit cons m e) := by
  unfold cancelOnPointerExit
  split
  · exact invPub_cancel cons m e h
  · exact h

theorem invPub_onPointerDown (cons : Consumer) (m : Machine) (e : PtrEvt)
    (h : InvPub m) : InvPub (onPointerDown cons m e) := by
  unfold InvPub at h ⊢
  simp only [onPointerDown]
  repeat' split
  all_goals try simp only [triggerPressStart]
  all_goals repeat' split
  all_goals simp_all

theorem invPub_onPointerMoveDoc (cons : Consumer) (m : Machine) (e : PtrEvt)
    (h : InvPub m) : InvPub (onPointerMoveDoc cons m e) := by
  simp only [onPointerMoveDoc]
  repeat' split
  all_goals first
    | exact h
    | exact invPub_triggerPressStart _ _ _ _ (invPub_congr m _ h rfl rfl)
    | exact invPub_cancelOnPointerExit _ _ _
        (invPub_triggerPressEnd _ _ _ _ _ (invPub_congr m _ h rfl rfl))

theorem invPub_onPointerUpDoc (cons : Consumer) (m : Machine) (e : PtrEvt)
    (h : InvPub m) : InvPub (onPointerUpDoc cons m e) := by
  unfold InvPub at h ⊢
  simp only [onPointerUpDoc]
  repeat' split
  all_goals try simp only [triggerPressEnd]
  all_goals repeat' split
  all_goals simp_all

theorem invPub_onPointerCancelDoc (cons : Consumer) (m : Machine) (e : PtrEvt)
    (h : InvPub m) : InvPub (onPointerCancelDoc cons m e) :=
  invPub_cancel cons m e.base h

theorem invPub_onPointerUpEl (cons : Consumer) (m : Machine) (e : PtrEvt)
    (h : InvPub m) : InvPub (onPointerUpEl cons m e) := by
  unfold InvPub at h ⊢
  simp only [onPointerUpEl]
  repeat' split
  all_goals try simp only [triggerPressUp]
  all_goals repeat' split
  all_goals simp_all

theorem invPub_onMouseUpDoc (cons : Consumer) (m : Machine) (e : MouseEvt)
    (h : InvPub m) : InvPub (onMouseUpDoc cons m e) := by
  unfold InvPub at h ⊢
  simp only [onMouseUpDoc]
  repeat' split
  all_goals try simp only [triggerPressEnd]
  all_goals repeat' split
  all_goals simp_all

theorem invPub_onScroll (cons : Consumer) (m : Machine) (tgt : Elem)
    (h : InvPub m) : InvPub (onScroll cons m tgt) := by
  simp only [onScroll]
  repeat' split
  all_goals first
    | exact h
    | exact invPub_cancel _ _ _ h

theorem invPub_onMouseDownNp (cons : Consumer) (m : Machine) (e : MouseEvt)
    (h : InvPub m) : InvPub (onMouseDownNp cons m e) := by
  unfold InvPub at h ⊢
  simp only [onMouseDownNp]
  repeat' split
  all_goals try simp only [triggerPressStart]
  all_goals repeat' split
  all_goals simp_all

theorem invPub_onMouseEnterNp (cons : Consumer) (m : Machine) (e : MouseEvt)
    (h : InvPub m) : InvPub (onMouseEnterNp cons m e) := by
  simp only [onMouseEnterNp]
  repeat' split
  all_goals first
    | exact h
    | exact invPub_triggerPressStart _ _ _ _ (invPub_congr m _ h rfl rfl)

theorem invPub_onMouseLeaveNp (cons : Consumer) (m : Machine) (e : MouseEvt)
    (h : InvPub m) : InvPub (onMouseLeaveNp cons m e) := by
  simp only [onMouseLeaveNp]
  repeat' split
  all_goals first
    | exact h
    | exact invPub_cancelOnPointerExit _ _ _
        (invPub_triggerPressEnd _ _ _ _ _ (invPub_congr m _ h rfl rfl))

theorem invPub_onMouseUpElNp (cons : Consumer) (m : Machine) (e : MouseEvt)
    (h : InvPub m) : InvPub (onMouseUpElNp cons m e) := by
  simp only [onMouseUpElNp]
  repeat' split
  all_goals first
    | exact h
    | exact invPub_triggerPressUp _ _ _ _ h

theorem invPub_onTouchStart (cons : Consumer) (m : Machine) (e : TouchEvt)
    (h : InvPub m) : InvPub (onTouchStart cons m e) := by
  unfold InvPub at h ⊢
  simp only [onTouchStart]
  repeat' split
  all_goals try simp only [triggerPressStart]
  all_goals repeat' split
  all_goals simp_all

theorem invPub_onTouchMove (cons : Consumer) (m : Machine) (e : TouchEvt)
    (h : InvPub m) : InvPub (onTouchMove cons m e) := by
  simp only [onTouchMove]
  repeat' split
  all_goals first
    | exact h
    | exact invPub_triggerPressStart _ _ _ _ (invPub_congr m _ h rfl rfl)
    | exact invPub_cancelOnPointerExit _ _ _
        (invPub_triggerPressEnd _ _ _ _ _ (invPub_congr m _ h rfl rfl))

theorem invPub_onTouchEnd (cons : Consumer) (m : Machine) (e : TouchEvt)
    (h : InvPub m) : InvPub (onTouchEnd cons m e) := by
  unfold InvPub at h ⊢
  simp only [onTouchEnd]
  repeat' split
  all_goals try simp only [triggerPressEnd, triggerPressUp]
  all_goals repeat' split
  all_goals simp_all

theorem invPub_onTouchCancel (cons : Consumer) (m : Machine) (e : TouchEvt)
    (h : InvPub m) : InvPub (onTouchCancel cons m e) := by
  simp only [onTouchCancel]
  repeat' split
  all_goals first
    | exact h
    | exact invPub_cancel _ _ _ h

theorem invPub_onDragStart (cons : Consumer) (m : Machine) (e : MouseEvt)
    (h : InvPub m) : InvPub (onDragStart cons m e) := by
  simp only [onDragStart]
  split
  · exact h
  · exact invPub_cancel _ _ _ h

theorem invPub_step (env : Env) (cons : Consumer) (m : Machine) (ev : InEvt)
    (h : InvPub m) : InvPub (step env cons m ev) := by
  cases ev with
  | keydown e => exact invPub_onKeyDown env cons m e h
  | keyupEl e => exact invPub_onKeyUpEl cons m e h
  | keyupDoc e =>
    simp only [step]; split
    · exact invPub_onKeyUpDoc cons m e h
    · exact h
  | click e => exact invPub_onClick env cons m e h
  | pointerdown e =>
    simp only [step]; split
    · exact invPub_onPointerDown cons m e h
    · exact h
  | pointermoveDoc e =>
    simp only [step]; split
    · exact invPub_onPointerMoveDoc cons m e h
    · exact h
  | pointerupDoc e =>
    simp only [step]; split
    · exact invPub_onPointerUpDoc cons m e h
    · exact h
  | pointercancelDoc e =>
    simp only [step]; split
    · exact invPub_onPointerCancelDoc cons m e h
    · exact h
  | pointerupEl e =>
    simp only [step]; split
    · exact invPub_onPointerUpEl cons m e h
    · exact h
  | mousedownPtr e =>
    simp only [step]; split
    · exact h
    · exact h
  | mousedownNp e =>
    simp only [step]; split
    · exact invPub_onMouseDownNp cons m e h
    · exact h
  | mouseenterNp e =>
    simp only [step]; split
    · exact invPub_onMouseEnterNp cons m e h
    · exact h
  | mouseleaveNp e =>
    simp only [step]; split
    · exact invPub_onMouseLeaveNp cons m e h
    · exact h
  | mouseupElNp e =>
    simp only [step]; split
    · exact invPub_onMouseUpElNp cons m e h
    · exact h
  | mouseupDocNp e =>
    simp only [step]; split
    · exact invPub_onMouseUpDoc cons m e h
    · exact h
  | touchstartNp e =>
    simp only [step]; split
    · exact invPub_onTouchStart cons m e h
    · exact h
  | touchmoveNp e =>
    simp only [step]; split
    · exact invPub_onTouchMove cons m e h
    · exact h
  | touchendNp e =>
    simp only [step]; split
    · exact invPub_onTouchEnd cons m e h
    · exact h
  | touchcancelNp e =>
    simp only [step]; split
    · exact invPub_onTouchCancel cons m e h
    · exact h
  | dragstartNp e =>
    simp only [step]; split
    · exact invPub_onDragStart cons m e h
    · exact h
  | scrollDoc tgt =>
    simp only [step]; split
    · exact invPub_onScroll cons m tgt h
    · exact h
  | setDisabled b => exact invPub_congr m _ h rfl rfl
  | setPreventFocusOnPress b => exact invPub_congr m _ h rfl rfl
  | setCancelOnPointerExit b => exact invPub_congr m _ h rfl rfl
  | setAllowTextSelection b => exact invPub_congr m _ h rfl rfl

theorem invPub_foldl (env : Env) (cons : Consumer) (m : Machine) (evs : List InEvt)
    (h : InvPub m) : InvPub (evs.foldl (step env cons) m) := by
  induction evs generalizing m with
  | nil => exact h
  | cons ev evs ih => exact ih _ (invPub_step env cons m ev h)

/-- C10: in every state reachable by any sequence of inputs (any adapter's
events, any runtime option updates), the public read-only `isPressed` store
equals the internal `didFirePressStart` flag — `triggerPressStart` sets the
pair together, `triggerPressEnd` clears it together, and no other code path
writes either. -/
theorem pubPressed_mirrors_didFirePressStart (env : Env) (cons : Consumer)
    (opts : Opts) (evs : List InEvt) :
    (run env cons opts evs).pubPressed = (run env cons opts evs).state.didFirePressStart :=
  invPub_foldl env cons (initMachine opts) evs rfl

/- `InvPtr` preservation: every handler except the keyboard `keydown` path
either records a pointer type together with (or before) setting
`state.isPressed`, or clears `state.isPressed`. -/

theorem invPtr_congr (m m' : Machine) (h : InvPtr m)
    (h1 : m'.state.isPressed = m.state.isPressed)
    (h2 : m'.state.pointerType = m.state.pointerType) : InvPtr m' := by
  unfold InvPtr at *
  rw [h1, h2]
  exact h

theorem invPtr_triggerPressStart (cons : Consumer) (m : Machine) (e : EventBase)
    (pt : PType) (h : InvPtr m) : InvPtr (triggerPressStart cons m e pt).1 := by
  unfold InvPtr at h ⊢
  simp only [triggerPressStart]
  repeat' split
  all_goals simp_all

theorem invPtr_triggerPressEnd (cons : Consumer) (m : Machine) (e : EventBase)
    (pt : PType) (w : Bool) (h : InvPtr m) : InvPtr (triggerPressEnd cons m e pt w).1 := by
  unfold InvPtr at h ⊢
  simp only [triggerPressEnd]
  repeat' split
  all_goals simp_all

theorem invPtr_triggerPressUp (cons : Consumer) (m : Machine) (e : EventBase)
    (pt : PType) (h : InvPtr m) : InvPtr (triggerPressUp cons m e pt).1 := by
  unfold InvPtr at h ⊢
  simp only [triggerPressUp]
  repeat' split
  all_goals simp_all

theorem invPtr_cancel (cons : Consumer) (m : Machine) (e : EventBase)
    (h : InvPtr m) : InvPtr (cancel cons m e) := by
  unfold InvPtr at h ⊢
  simp only [cancel]
  repeat' split
  all_goals try simp only [triggerPressEnd]
  all_goals repeat' split
  all_goals simp_all

theorem invPtr_cancelOnPointerExit (cons : Consumer) (m : Machine) (e : EventBase)
    (h : InvPtr m) : InvPtr (cancelOnPointerExit cons m e) := by
  unfold cancelOnPointerExit
  split
  · exact invPtr_cancel cons m e h
  · exact h

theorem invPtr_onKeyUpDoc (cons : Consumer) (m : Machine) (e : KeyEvt)
    (h : InvPtr m) : InvPtr (onKeyUpDoc cons m e) := by
  unfold InvPtr at h ⊢
  simp only [onKeyUpDoc]
  repeat' split
  all_goals try simp only [triggerPressEnd]
  all_goals repeat' split
  all_goals simp_all

theorem invPtr_onKeyUpEl (cons : Consumer) (m : Machine) (e : KeyEvt)
    (h : InvPtr m) : InvPtr (onKeyUpEl cons m e) := by
  simp only [onKeyUpEl]
  repeat' split
  all_goals first
    | exact h
    | exact invPtr_triggerPressUp _ _ _ _ h

theorem invPtr_onClick (env : Env) (cons : Consumer) (m : Machine) (e : MouseEvt)
    (h : InvPtr m) : InvPtr (onClick env cons m e) := by
  unfold InvPtr at h ⊢
  simp only [onClick]
  repeat' split
  all_goals try simp only [triggerPressStart, triggerPressEnd, triggerPressUp]
  all_goals repeat' split
  all_goals simp_all

theorem invPtr_onPointerDown (cons : Consumer) (m : Machine) (e : PtrEvt)
    (h : InvPtr m) : InvPtr (onPointerDown cons m e) := by
  unfold InvPtr at h ⊢
  simp only [onPointerDown]
  repeat' split
  all_goals try simp only [triggerPressStart]
  all_goals repeat' split
  all_goals simp_all

theorem invPtr_onPointerMoveDoc (cons : Consumer) (m : Machine) (e : PtrEvt)
    (h : InvPtr m) : InvPtr (onPointerMoveDoc cons m e) := by
  simp only [onPointerMoveDoc]
  repeat' split
  all_goals first
    | exact h
    | exact invPtr_triggerPressStart _ _ _ _ (invPtr_congr m _ h rfl rfl)
    | exact invPtr_cancelOnPointerExit _ _ _
        (invPtr_triggerPressEnd _ _ _ _ _ (invPtr_congr m _ h rfl rfl))

theorem invPtr_onPointerUpDoc (cons : Consumer) (m : Machine) (e : PtrEvt)
    (h : InvPtr m) : InvPtr (onPointerUpDoc cons m e) := by
  unfold InvPtr at h ⊢
  simp only [onPointerUpDoc]
  repeat' split
  all_goals try simp only [triggerPressEnd]
  all_goals repeat' split
  all_goals simp_all

theorem invPtr_onPointerCancelDoc (cons : Consumer) (m : Machine) (e : PtrEvt)
    (h : InvPtr m) : InvPtr (onPointerCancelDoc cons m e) :=
  invPtr_cancel cons m e.base h

theorem invPtr_onPointerUpEl (cons : Consumer) (m : Machine) (e : PtrEvt)
    (h : InvPtr m) : InvPtr (onPointerUpEl cons m e) := by
  simp only [onPointerUpEl]
  repeat' split
  all_goals first
    | exact h
    | exact invPtr_triggerPressUp _ _ _ _ h

theorem invPtr_onMouseUpDoc (cons : Consumer) (m : Machine) (e : MouseEvt)
    (h : InvPtr m) : InvPtr (onMouseUpDoc cons m e) := by
  unfold InvPtr at h ⊢
  simp only [onMouseUpDoc]
  repeat' split
  all_goals try simp only [triggerPressEnd]
  all_goals repeat' split
  all_goals simp_all

theorem invPtr_onScroll (cons : Consumer) (m : Machine) (tgt : Elem)
    (h : InvPtr m) : InvPtr (onScroll cons m tgt) := by
  simp only [onScroll]
  repeat' split
  all_goals first
    | exact h
    | exact invPtr_cancel _ _ _ h

theorem invPtr_onMouseDownNp (cons : Consumer) (m : Machine) (e : MouseEvt)
    (h : InvPtr m) : InvPtr (onMouseDownNp cons m e) := by
  unfold InvPtr at h ⊢
  simp only [onMouseDownNp]
  repeat' split
  all_goals try simp only [triggerPressStart]
  all_goals repeat' split
  all_goals simp_all

theorem invPtr_onMouseEnterNp (cons : Consumer) (m : Machine) (e : MouseEvt)
    (h : InvPtr m) : InvPtr (onMouseEnterNp cons m e) := by
  simp only [onMouseEnterNp]
  repeat' split
  all_goals first
    | exact h
    | exact invPtr_triggerPressStart _ _ _ _ (invPtr_congr m _ h rfl rfl)

theorem invPtr_onMouseLeaveNp (cons : Consumer) (m : Machine) (e : MouseEvt)
    (h : InvPtr m) : InvPtr (onMouseLeaveNp cons m e) := by
  simp only [onMouseLeaveNp]
  repeat' split
  all_goals first
    | exact h
    | exact invPtr_cancelOnPointerExit _ _ _
        (invPtr_triggerPressEnd _ _ _ _ _ (invPtr_congr m _ h rfl rfl))

theorem invPtr_onMouseUpElNp (cons : Consumer) (m : Machine) (e : MouseEvt)
    (h : InvPtr m) : InvPtr (onMouseUpElNp cons m e) := by
  simp only [onMouseUpElNp]
  repeat' split
  all_goals first
    | exact h
    | exact invPtr_triggerPressUp _ _ _ _ h

theorem invPtr_onTouchStart (cons : Consumer) (m : Machine) (e : TouchEvt)
    (h : InvPtr m) : InvPtr (onTouchStart cons m e) := by
  unfold InvPtr at h ⊢
  simp only [onTouchStart]
  repeat' split
  all_goals try simp only [triggerPressStart]
  all_goals repeat' split
  all_goals simp_all

theorem invPtr_onTouchMove (cons : Consumer) (m : Machine) (e : TouchEvt)
    (h : InvPtr m) : InvPtr (onTouchMove cons m e) := by
  simp only [onTouchMove]
  repeat' split
  all_goals first
    | exact h
    | exact invPtr_triggerPressStart _ _ _ _ (invPtr_congr m _ h rfl rfl)
    | exact invPtr_cancelOnPointerExit _ _ _
        (invPtr_triggerPressEnd _ _ _ _ _ (invPtr_congr m _ h rfl rfl))

theorem invPtr_onTouchEnd (cons : Consumer) (m : Machine) (e : TouchEvt)
    (h : InvPtr m) : InvPtr (onTouchEnd cons m e) := by
  unfold InvPtr at h ⊢
  simp only [onTouchEnd]
  repeat' split
  all_goals try simp only [triggerPressEnd, triggerPressUp]
  all_goals repeat' split
  all_goals simp_all

theorem invPtr_onTouchCancel (cons : Consumer) (m : Machine) (e : TouchEvt)
    (h : InvPtr m) : InvPtr (onTouchCancel cons m e) := by
  simp only [onTouchCancel]
  repeat' split
  all_goals first
    | exact h
    | exact invPtr_cancel _ _ _ h

theorem invPtr_onDragStart (cons : Consumer) (m : Machine) (e : MouseEvt)
    (h : InvPtr m) : InvPtr (onDragStart cons m e) := by
  simp only [onDragStart]
  split
  · exact h
  · exact invPtr_cancel _ _ _ h

theorem invPtr_step (env : Env) (cons : Consumer) (m : Machine) (ev : InEvt)
    (h : InvPtr m) (hk : isKeydownEvt ev = false) : InvPtr (step env cons m ev) := by
  cases ev with
  | keydown e => exact absurd hk (by simp [isKeydownEvt])
  | keyupEl e => exact invPtr_onKeyUpEl cons m e h
  | keyupDoc e =>
    simp only [step]; split
    · exact invPtr_onKeyUpDoc cons m e h
    · exact h
  | click e => exact invPtr_onClick env cons m e h
  | pointerdown e =>
    simp only [step]; split
    · exact invPtr_onPointerDown cons m e h
    · exact h
  | pointermoveDoc e =>
    simp only [step]; split
    · exact invPtr_onPointerMoveDoc cons m e h
    · exact h
  | pointerupDoc e =>
    simp only [step]; split
    · exact invPtr_onPointerUpDoc cons m e h
    · exact h
  | pointercancelDoc e =>
    simp only [step]; split
    · exact invPtr_onPointerCancelDoc cons m e h
    · exact h
  | pointerupEl e =>
    simp only [step]; split
    · exact invPtr_onPointerUpEl cons m e h
    · exact h
  | mousedownPtr e =>
    simp only [step]; split
    · exact h
    · exact h
  | mousedownNp e =>
    simp only [step]; split
    · exact invPtr_onMouseDownNp cons m e h
    · exact h
  | mouseenterNp e =>
    simp only [step]; split
    · exact invPtr_onMouseEnterNp cons m e h
    · exact h
  | mouseleaveNp e =>
    simp only [step]; split
    · exact invPtr_onMouseLeaveNp cons m e h
    · exact h
  | mouseupElNp e =>
    simp only [step]; split
    · exact invPtr_onMouseUpElNp cons m e h
    · exact h
  | mouseupDocNp e =>
    simp only [step]; split
    · exact invPtr_onMouseUpDoc cons m e h
    · exact h
  | touchstartNp e =>
    simp only [step]; split
    · exact invPtr_onTouchStart cons m e h
    · exact h
  | touchmoveNp e =>
    simp only [step]; split
    · exact invPtr_onTouchMove cons m e h
    · exact h
  | touchendNp e =>
    simp only [step]; split
    · exact invPtr_onTouchEnd cons m e h
    · exact h
  | touchcancelNp e =>
    simp only [step]; split
    · exact invPtr_onTouchCancel cons m e h
    · exact h
  | dragstartNp e =>
    simp only [step]; split
    · exact invPtr_onDragStart cons m e h
    · exact h
  | scrollDoc tgt =>
    simp only [step]; split
    · exact invPtr_onScroll cons m tgt h
    · exact h
  | setDisabled b => exact invPtr_congr m _ h rfl rfl
  | setPreventFocusOnPress b => exact invPtr_congr m _ h rfl rfl
  | setCancelOnPointerExit b => exact invPtr_congr m _ h rfl rfl
  | setAllowTextSelection b => exact invPtr_congr m _ h rfl rfl

theorem invPtr_foldl (env : Env) (cons : Consumer) (m : Machine) (evs : List InEvt)
    (h : InvPtr m) (hk : evs.all (fun e => !isKeydownEvt e) = true) :
    InvPtr (evs.foldl (step env cons) m) := by
  induction evs generalizing m with
  | nil => exact h
  | cons ev evs ih =>
    rw [List.all_cons, Bool.and_eq_true] at hk
    exact ih _ (invPtr_step env cons m ev h (by simpa using hk.1)) hk.2

/-- C2 amended: in every state reachable by a sequence of inputs containing
no keyboard `keydown`, `pointerType` is non-null whenever `state.isPressed`
is true (every pointer/mouse/touch start records a pointer type together
with setting the flag, and every release/cancel path clears the flag).  The
keyboard `keydown` path violates the invariant as originally claimed: it
sets `state.isPressed` without recording a pointer type (the subsequent
keyboard events pass `'keyboard'` explicitly instead of reading it), see
the counterexample. -/
theorem pointerType_nonnull_when_pressed_sans_keydown (env : Env) (cons : Consumer)
    (opts : Opts) (evs : List InEvt)
    (hk : evs.all (fun e => !isKeydownEvt e) = true) :
    InvPtr (run env cons opts evs) :=
  invPtr_foldl env cons (initMachine opts) evs (fun h => by simp [initMachine] at h) hk

/-- C2 amended witness: a pointer press run (no keydown events) satisfies
the invariant, with `isPressed` actually true and `pointerType` recorded. -/
theorem pointerType_nonnull_when_pressed_sans_keydown_witness :
    ([InEvt.pointerdown pdownInside].all (fun e => !isKeydownEvt e) = true) ∧
    InvPtr (run envDefault cons0 opts0 [.pointerdown pdownInside]) ∧
    (run envDefault cons0 opts0 [.pointerdown pdownInside]).state.isPressed = true :=
  ⟨rfl,
   pointerType_nonnull_when_pressed_sans_keydown envDefault cons0 opts0
     [.pointerdown pdownInside] rfl,
   rfl⟩
